import Mathlib

/-!
Shallow embedding of `src/cloud/main.py`, a Node.js bootstrap script:
presence check, distro identification from `/etc/os-release`, strategy
dispatch (Debian / RedHat / fallback package managers) and post-install
verification.  External commands are modelled by an oracle (`World`)
answering each spawned command in execution order; the execution state
threads the call counter and the trace of spawned argvs.
-/

/-- Outcome of spawning one external command: either the executable could not
be located (Python raises `FileNotFoundError`) or the process ran and exited
with a code, its captured stdout recorded. -/
inductive Spawn where
  | notFound
  | exited (exitCode : Nat) (stdout : String)
deriving DecidableEq

/-- The external world of one run: the answer to the i-th spawned command
given its argv.  Indexing by execution order lets the two presence checks of
a run answer differently (installation changes the world). -/
def World : Type := Nat → List String → Spawn

/-- Execution state threaded through the embedding: the index of the next
spawned command, and the trace of every argv spawned so far, in order. -/
structure St where
  n : Nat
  tr : List (List String)
deriving DecidableEq

/-- Spawn one command: record the argv in the trace, consume one oracle
answer. -/
def runOne (w : World) (s : St) (argv : List String) : Spawn × St :=
  (w s.n argv, ⟨s.n + 1, s.tr ++ [argv]⟩)

/-- Python `subprocess.run(argv, check=True)` raises nothing exactly when the
executable spawned and exited 0. -/
def isSuccess : Spawn → Bool
  | .exited 0 _ => true
  | _ => false

/-- How one `subprocess.run(argv, check=True)` step behaves inside a
`try/except subprocess.CalledProcessError` block: a missing executable raises
`FileNotFoundError` (uncaught there), a non-zero exit raises
`CalledProcessError` (caught), exit 0 passes with its stdout. -/
inductive StepRes where
  | raised
  | failed
  | passed (stdout : String)
deriving DecidableEq

/-- Classify one spawn outcome as `StepRes`. -/
def classify : Spawn → StepRes
  | .notFound => .raised
  | .exited c out => if c = 0 then .passed out else .failed

/-- Python `s.strip()` over a character list: drop leading and trailing
whitespace. -/
def trimChars (cs : List Char) : List Char :=
  ((cs.dropWhile Char.isWhitespace).reverse.dropWhile Char.isWhitespace).reverse

/-- Python `s.strip()` (the source prints `result.stdout.strip()`). -/
def trimStr (s : String) : String :=
  String.mk (trimChars s.toList)

/-- Embedding of `check_node_installed` (main.py lines 16-25): runs
`node --version`; the first component says whether Node.js was reported
installed, the second is the version the source prints (the trimmed stdout),
`none` when the probe failed.  Both `CalledProcessError` and
`FileNotFoundError` are caught, so the function always returns. -/
def check_node_installed (w : World) (s : St) : (Bool × Option String) × St :=
  let (r, s') := runOne w s ["node", "--version"]
  match r with
  | .exited 0 out => ((true, some (trimStr out)), s')
  | _ => ((false, none), s')

/-- Python `s.split(sep-char)` over a character list: every separator
occurrence starts a new group, empty groups kept. -/
def splitOnPred (p : Char → Bool) : List Char → List (List Char)
  | [] => [[]]
  | c :: t =>
    match splitOnPred p t with
    | [] => if p c then [[], []] else [[c]]
    | g :: gs => if p c then [] :: g :: gs else (c :: g) :: gs

/-- Python `s.lower()` for the ASCII identifiers this script compares. -/
def lowerStr (s : String) : String :=
  String.mk (s.toList.map Char.toLower)

/-- Python `value.strip(string-of-one-double-quote)`: drop every leading and
trailing double-quote character. -/
def stripQuotes (v : String) : String :=
  String.mk (((v.toList.dropWhile (· == '"')).reverse.dropWhile (· == '"')).reverse)

/-- Python `line.split(eq-sign, 1)` when the line contains an equals sign:
the characters before the first `=` and everything after it. -/
def splitFirstAtEq : List Char → Option (List Char × List Char)
  | [] => none
  | c :: t =>
    if c = '=' then some ([], t)
    else
      match splitFirstAtEq t with
      | none => none
      | some (k, v) => some (c :: k, v)

/-- One line of `/etc/os-release` (main.py lines 35-38): a line containing
`=` is split on the first `=`; the value keeps any later `=` and has
surrounding quotes stripped; a line without `=` is ignored. -/
def parseLine (line : String) : Option (String × String) :=
  match splitFirstAtEq line.toList with
  | none => none
  | some (k, v) => some (String.mk k, stripQuotes (String.mk v))

/-- All key/value pairs of the file content (split on newlines), in line
order. -/
def osReleasePairs (content : String) : List (String × String) :=
  ((splitOnPred (· == '\n') content.toList).map String.mk).filterMap parseLine

/-- Python `distro_info.get(key, dflt)` for a dict filled line by line: the
last binding of the key wins. -/
def getLast (ps : List (String × String)) (key dflt : String) : String :=
  match ps.reverse.find? (fun p => p.1 = key) with
  | some p => p.2
  | none => dflt

/-- Embedding of `detect_linux_distro` (main.py lines 28-49).  The argument
is the readable content of `/etc/os-release`, `none` standing for any read
failure (the `except Exception` path); the result is `none` for the source's
`return None, None`, otherwise the lower-cased `ID` and `ID_LIKE` values. -/
def detect_linux_distro (osRelease : Option String) : Option (String × String) :=
  match osRelease with
  | none => none
  | some content =>
    let info := osReleasePairs content
    some (lowerStr (getLast info "ID" ""), lowerStr (getLast info "ID_LIKE" ""))

/-- Whether `needle` occurs as a contiguous run inside the character list. -/
def containsSub (needle : List Char) : List Char → Bool
  | [] => needle.isPrefixOf []
  | c :: t => needle.isPrefixOf (c :: t) || containsSub needle t

/-- Python's `sub in s` substring test. -/
def strContains (s sub : String) : Bool :=
  containsSub sub.toList s.toList

/-- The Debian-family condition of main.py line 154:
`distro_id in [debian, ubuntu] or any(like in distro_id_like for like in [debian, ubuntu])`.
Note the membership in `distro_id_like` is a substring test on the whole
lower-cased `ID_LIKE` string, not a token-set test. -/
def isDebianFamily (id idLike : String) : Bool :=
  (id == "debian" || id == "ubuntu") ||
    (strContains idLike "debian" || strContains idLike "ubuntu")

/-- The RedHat-family condition of main.py line 159. -/
def isRedhatFamily (id idLike : String) : Bool :=
  (id == "rhel" || id == "centos" || id == "fedora") ||
    (strContains idLike "rhel" || strContains idLike "fedora")

/-- The NodeSource setup-script URL of the Debian branch. -/
def debianScriptUrl : String := "https://deb.nodesource.com/setup_18.x"

/-- The NodeSource setup-script URL of the RedHat branch. -/
def redhatScriptUrl : String := "https://rpm.nodesource.com/setup_18.x"

/-- Sequencing of one checked step inside a Debian/RedHat strategy body:
`FileNotFoundError` escapes the function (`Except.error`), `CalledProcessError`
is caught and returns `False`, success passes its stdout on. -/
def stepBind (w : World) (argv : List String) (s : St)
    (k : String → St → Except Unit Bool × St) : Except Unit Bool × St :=
  let (r, s') := runOne w s argv
  match classify r with
  | .raised => (.error (), s')
  | .failed => (.ok false, s')
  | .passed out => k out s'

/-- Embedding of `install_nodejs_debian_based` (main.py lines 52-83): apt
update, apt install curl gnupg, a first fetch of the setup script whose
result is discarded, a second fetch whose stdout is executed via
`sudo -E bash -c`, then apt install nodejs.  `Except.error ()` models an
uncaught `FileNotFoundError` (only `CalledProcessError` is caught). -/
def install_nodejs_debian_based (w : World) (s : St) : Except Unit Bool × St :=
  stepBind w ["sudo", "apt", "update"] s fun _ s =>
  stepBind w ["sudo", "apt", "install", "-y", "curl", "gnupg"] s fun _ s =>
  stepBind w ["curl", "-fsSL", debianScriptUrl] s fun _ s =>
  stepBind w ["curl", "-fsSL", debianScriptUrl] s fun setupScript s =>
  stepBind w ["sudo", "-E", "bash", "-c", setupScript] s fun _ s =>
  stepBind w ["sudo", "apt", "install", "-y", "nodejs"] s fun _ s =>
  (.ok true, s)

/-- Embedding of `install_nodejs_redhat_based` (main.py lines 86-112). -/
def install_nodejs_redhat_based (w : World) (s : St) : Except Unit Bool × St :=
  stepBind w ["sudo", "yum", "install", "-y", "curl"] s fun _ s =>
  stepBind w ["curl", "-fsSL", redhatScriptUrl] s fun setupScript s =>
  stepBind w ["sudo", "-E", "bash", "-c", setupScript] s fun _ s =>
  stepBind w ["sudo", "yum", "install", "-y", "nodejs"] s fun _ s =>
  (.ok true, s)

/-- The candidate package-manager invocations of `install_nodejs_fallback`
(main.py lines 121-127), in source order. -/
def package_managers : List (List String) :=
  [["apt", "install", "-y", "nodejs", "npm"],
   ["yum", "install", "-y", "nodejs", "npm"],
   ["dnf", "install", "-y", "nodejs", "npm"],
   ["zypper", "install", "-y", "nodejs", "npm"],
   ["pacman", "-S", "--noconfirm", "nodejs", "npm"]]

/-- The loop of `install_nodejs_fallback` (main.py lines 129-135): spawn
`sudo` plus each candidate in order; return `true` at the first exit 0; a
`CalledProcessError` or `FileNotFoundError` is swallowed and the next
candidate tried; `false` when the list is exhausted. -/
def tryManagers (w : World) : List (List String) → St → Bool × St
  | [], s => (false, s)
  | c :: rest, s =>
    let (r, s') := runOne w s ("sudo" :: c)
    if isSuccess r then (true, s') else tryManagers w rest s'

/-- Embedding of `install_nodejs_fallback` (main.py lines 115-142). -/
def install_nodejs_fallback (w : World) (s : St) : Bool × St :=
  tryManagers w package_managers s

/-- Embedding of `install_nodejs` (main.py lines 145-165).  Detection
failure or an empty id goes to the fallback; a Debian/RedHat family id runs
that family's strategy and, when it returns `False`, falls through to the
fallback (the source's family branch only returns early on `True`); every
other id goes to the fallback. -/
def install_nodejs (osRelease : Option String) (w : World) (s : St) :
    Except Unit Bool × St :=
  match detect_linux_distro osRelease with
  | none =>
    let (b, s') := install_nodejs_fallback w s
    (.ok b, s')
  | some (id, idLike) =>
    if id = "" then
      let (b, s') := install_nodejs_fallback w s
      (.ok b, s')
    else if isDebianFamily id idLike then
      match install_nodejs_debian_based w s with
      | (.ok true, s') => (.ok true, s')
      | (.ok false, s') =>
        let (b, s'') := install_nodejs_fallback w s'
        (.ok b, s'')
      | (.error e, s') => (.error e, s')
    else if isRedhatFamily id idLike then
      match install_nodejs_redhat_based w s with
      | (.ok true, s') => (.ok true, s')
      | (.ok false, s') =>
        let (b, s'') := install_nodejs_fallback w s'
        (.ok b, s'')
      | (.error e, s') => (.error e, s')
    else
      let (b, s') := install_nodejs_fallback w s
      (.ok b, s')

/-- The three install strategies the source dispatches between. -/
inductive StrategyKind where
  | debianBased
  | redhatBased
  | fallback
deriving DecidableEq

/-- The strategy `install_nodejs` dispatches to first, read directly off the
source's branch conditions (main.py lines 149-165): `None` or empty id and
every unmatched id go to the fallback. -/
def selectStrategy : Option (String × String) → StrategyKind
  | none => .fallback
  | some (id, idLike) =>
    if id = "" then .fallback
    else if isDebianFamily id idLike then .debianBased
    else if isRedhatFamily id idLike then .redhatBased
    else .fallback

/-- The whitespace-split, lower-cased token list of an `ID_LIKE` value, as
the spec reads it. -/
def wsTokens (s : String) : List String :=
  ((splitOnPred Char.isWhitespace (lowerStr s).toList).map String.mk).filter
    (fun t => t != "")

/-- Modelled from the spec: the claimed selection rule, which matches
`ID_LIKE` by intersecting its whitespace-split token set with the family
token sets (refinement comparison against `selectStrategy`; this definition
follows the spec's words, not the source). -/
def selectStrategyClaimed (id idLike : String) : StrategyKind :=
  if id == "debian" || id == "ubuntu" ||
      (wsTokens idLike).any (fun t => t == "debian" || t == "ubuntu") then
    .debianBased
  else if id == "rhel" || id == "centos" || id == "fedora" ||
      (wsTokens idLike).any (fun t => t == "rhel" || t == "fedora") then
    .redhatBased
  else
    .fallback

/-- The observable outcome of one run of `main` (main.py lines 168-200):
process exit code, the mode tokens passed to the downstream `setup`
collaborator, whether the sudo-recommendation warning was printed, and the
trace of every spawned argv. -/
structure Outcome where
  exitCode : Nat
  setupCalls : List String
  warned : Bool
  tr : List (List String)
deriving DecidableEq

/-- Embedding of `main` (main.py lines 168-200).  A non-Linux platform exits
1 before anything else; a non-zero effective uid only sets the warning; a
positive pre-check goes straight to `setup` and exit 0; otherwise
`install_nodejs` runs, an uncaught exception or a `False` return exits 1,
and a `True` return is verified by a second presence check deciding between
`setup` plus exit 0 and exit 1. -/
def mainRun (platformSystem : String) (euid : Nat) (osRelease : Option String)
    (w : World) : Outcome :=
  if platformSystem ≠ "Linux" then
    { exitCode := 1, setupCalls := [], warned := false, tr := [] }
  else
    let warned := euid != 0
    let c1 := check_node_installed w ⟨0, []⟩
    if c1.1.1 then
      { exitCode := 0, setupCalls := ["http"], warned := warned, tr := c1.2.tr }
    else
      let r := install_nodejs osRelease w c1.2
      match r.1 with
      | .error _ => { exitCode := 1, setupCalls := [], warned := warned, tr := r.2.tr }
      | .ok false => { exitCode := 1, setupCalls := [], warned := warned, tr := r.2.tr }
      | .ok true =>
        let c2 := check_node_installed w r.2
        if c2.1.1 then
          { exitCode := 0, setupCalls := ["http"], warned := warned, tr := c2.2.tr }
        else
          { exitCode := 1, setupCalls := [], warned := warned, tr := c2.2.tr }

/-- The fallback candidates as spawned, `sudo` prefixed. -/
def sudoCmds : List (List String) := package_managers.map (fun c => "sudo" :: c)

/-- Whether the j-th fallback candidate would succeed when the loop starts at
call index n. -/
def attemptSucceeds (w : World) (n j : Nat) : Bool :=
  isSuccess (w (n + j) (sudoCmds.getD j []))

/-- Concrete world for the fallback example: only the dnf candidate exits 0. -/
def wOnlyDnf : World := fun _ argv =>
  if argv = ["sudo", "dnf", "install", "-y", "nodejs", "npm"] then .exited 0 "" else .exited 1 ""

/-- Concrete world: the pre-check and the Debian strategy's first step exit 1,
every later command exits 0. -/
def wC2 : World := fun n _ =>
  if n = 0 || n = 1 then .exited 1 "" else .exited 0 "v18.0.0"

/-- Concrete world: every command answers exit 0 with a version string. -/
def wNodePresent : World := fun _ _ => .exited 0 "v18.17.0"

/-- Concrete world: only the second command (the fallback's apt candidate)
exits 0; in particular both presence checks fail. -/
def wVerifyFail : World := fun n _ =>
  if n = 1 then .exited 0 "" else .exited 1 ""

/-- Concrete world: every command exits 0; the two setup-script fetches
return distinct stdouts. -/
def wDebianRun : World := fun n _ =>
  .exited 0 (if n = 2 then "first-fetch" else if n = 3 then "second-fetch" else "")

/-- C1 counterexample.  The claim reads `ID_LIKE` as a whitespace-split token
set; the source (main.py line 154) tests substring containment on the whole
string and sends an empty id to the fallback before ever reading `ID_LIKE`
(line 149).  For id `arch` with `ID_LIKE=debian-based` the claimed table
yields Fallback while the source selects Debian; for an empty id with
`ID_LIKE=debian` the claimed table yields Debian while the source selects
Fallback. -/
theorem select_substring_vs_token_cex :
    selectStrategyClaimed "arch" "debian-based" = .fallback ∧
    selectStrategy (some ("arch", "debian-based")) = .debianBased ∧
    selectStrategyClaimed "" "debian" = .debianBased ∧
    selectStrategy (some ("", "debian")) = .fallback := by
  refine ⟨by decide, by decide, by decide, by decide⟩

/-- C1 amended.  Strategy selection is a total function of the detection
result and follows the source's table: a failed detection selects Fallback;
an empty id selects Fallback regardless of `ID_LIKE`; otherwise Debian when
the id is debian or ubuntu or the lower-cased `ID_LIKE` string contains
"debian" or "ubuntu" as a substring; otherwise RedHat when the id is rhel,
centos or fedora or `ID_LIKE` contains "rhel" or "fedora" as a substring;
every other input selects Fallback. -/
theorem select_follows_source_table (id idLike : String) :
    selectStrategy none = .fallback ∧
    (id = "" → selectStrategy (some (id, idLike)) = .fallback) ∧
    (selectStrategy (some (id, idLike)) = .debianBased ↔
      id ≠ "" ∧ (id = "debian" ∨ id = "ubuntu" ∨
        strContains idLike "debian" = true ∨ strContains idLike "ubuntu" = true)) ∧
    (selectStrategy (some (id, idLike)) = .redhatBased ↔
      id ≠ "" ∧
      ¬(id = "debian" ∨ id = "ubuntu" ∨
        strContains idLike "debian" = true ∨ strContains idLike "ubuntu" = true) ∧
      (id = "rhel" ∨ id = "centos" ∨ id = "fedora" ∨
        strContains idLike "rhel" = true ∨ strContains idLike "fedora" = true)) := by
  have hd : isDebianFamily id idLike = true ↔
      (id = "debian" ∨ id = "ubuntu" ∨
        strContains idLike "debian" = true ∨ strContains idLike "ubuntu" = true) := by
    simp [isDebianFamily, Bool.or_eq_true, beq_iff_eq, or_assoc]
  have hr : isRedhatFamily id idLike = true ↔
      (id = "rhel" ∨ id = "centos" ∨ id = "fedora" ∨
        strContains idLike "rhel" = true ∨ strContains idLike "fedora" = true) := by
    simp [isRedhatFamily, Bool.or_eq_true, beq_iff_eq, or_assoc]
  refine ⟨rfl, fun h => by simp [selectStrategy, h], ?_, ?_⟩ <;>
    simp only [selectStrategy] <;>
    split_ifs with h1 h2 h3 <;>
    simp_all

/-- C6 counterexample.  On a read failure `detect_linux_distro` returns the
sentinel `None, None` (here `none`), not a record with an empty id and empty
id-like set. -/
theorem detect_failure_sentinel_cex :
    detect_linux_distro none ≠ some ("", "") ∧ detect_linux_distro none = none := by
  exact ⟨by decide, rfl⟩

/-- C6 amended.  On any read failure `detect_linux_distro` does not raise and
returns the sentinel `none` (the source's `None, None`), and `install_nodejs`
then runs exactly the fallback strategy; readable but malformed content that
yields an empty id is likewise routed to the fallback. -/
theorem detect_failure_routes_to_fallback (w : World) (s : St) :
    detect_linux_distro none = none ∧
    selectStrategy (detect_linux_distro none) = .fallback ∧
    install_nodejs none w s =
      (.ok (install_nodejs_fallback w s).1, (install_nodejs_fallback w s).2) ∧
    (∀ content idLike, detect_linux_distro (some content) = some ("", idLike) →
      install_nodejs (some content) w s =
        (.ok (install_nodejs_fallback w s).1, (install_nodejs_fallback w s).2)) := by
  refine ⟨rfl, rfl, rfl, fun content idLike h => ?_⟩
  unfold install_nodejs
  rw [h]
  rfl

/-- C7.  The presence probe is total: a missing executable or a non-zero exit
of `node --version` both yield installed `false` with no version, and exit 0
yields installed `true` with the trimmed stdout as the reported version;
no underlying failure propagates. -/
theorem presence_probe_total (w : World) (s : St) :
    (w s.n ["node", "--version"] = .notFound →
      (check_node_installed w s).1 = (false, none)) ∧
    (∀ c out, w s.n ["node", "--version"] = .exited c out → c ≠ 0 →
      (check_node_installed w s).1 = (false, none)) ∧
    (∀ out, w s.n ["node", "--version"] = .exited 0 out →
      (check_node_installed w s).1 = (true, some (trimStr out))) := by
  refine ⟨fun h => ?_, fun c out h hc => ?_, fun out h => ?_⟩
  · unfold check_node_installed runOne
    rw [h]
  · unfold check_node_installed runOne
    rw [h]
    cases c with
    | zero => exact absurd rfl hc
    | succ m => rfl
  · unfold check_node_installed runOne
    rw [h]

/-- C2 counterexample.  With `ID=ubuntu`, a Debian strategy whose first
command exits 1, and a fallback whose first candidate succeeds, the source
does not stop at the failed Debian strategy: `install_nodejs` falls through
to the fallback (its apt candidate appears in the trace after the failed
`sudo apt update`) and the run ends in overall success, exit code 0. -/
theorem debian_failure_not_overall_failure_cex :
    (install_nodejs_debian_based wC2 ⟨1, [["node", "--version"]]⟩).1 = .ok false ∧
    mainRun "Linux" 0 (some "ID=ubuntu") wC2 =
      { exitCode := 0, setupCalls := ["http"], warned := false,
        tr := [["node", "--version"], ["sudo", "apt", "update"],
               ["sudo", "apt", "install", "-y", "nodejs", "npm"],
               ["node", "--version"]] } := by
  exact ⟨rfl, rfl⟩

/-- C2 amended.  When the selected Debian-family or RedHat-family strategy
executes and returns failure, `install_nodejs` does not surface failure
directly: it falls through to the fallback strategy, and the overall result
is the fallback's result.  Only an uncaught exception or the fallback's own
exhaustion yields overall failure. -/
theorem family_strategy_failure_falls_back (osRelease : Option String)
    (w : World) (s : St) :
    (selectStrategy (detect_linux_distro osRelease) = .debianBased →
      (install_nodejs_debian_based w s).1 = .ok false →
      install_nodejs osRelease w s =
        (.ok (install_nodejs_fallback w (install_nodejs_debian_based w s).2).1,
         (install_nodejs_fallback w (install_nodejs_debian_based w s).2).2)) ∧
    (selectStrategy (detect_linux_distro osRelease) = .redhatBased →
      (install_nodejs_redhat_based w s).1 = .ok false →
      install_nodejs osRelease w s =
        (.ok (install_nodejs_fallback w (install_nodejs_redhat_based w s).2).1,
         (install_nodejs_fallback w (install_nodejs_redhat_based w s).2).2)) := by
  constructor
  · intro hsel hfail
    unfold install_nodejs
    rcases hd : detect_linux_distro osRelease with _ | ⟨id, idLike⟩
    · rw [hd] at hsel
      exact absurd hsel (by simp [selectStrategy])
    · rw [hd] at hsel
      simp only [selectStrategy] at hsel
      split_ifs at hsel with h1 h2 h3 <;> simp_all
      rcases hb : install_nodejs_debian_based w s with ⟨r, s'⟩
      rw [hb] at hfail
      simp at hfail
      subst hfail
      rfl
  · intro hsel hfail
    unfold install_nodejs
    rcases hd : detect_linux_distro osRelease with _ | ⟨id, idLike⟩
    · rw [hd] at hsel
      exact absurd hsel (by simp [selectStrategy])
    · rw [hd] at hsel
      simp only [selectStrategy] at hsel
      split_ifs at hsel with h1 h2 h3 <;> simp_all
      rcases hb : install_nodejs_redhat_based w s with ⟨r, s'⟩
      rw [hb] at hfail
      simp at hfail
      subst hfail
      rfl

/-- The sudo-prefixed candidate at position j, for j within the list. -/
theorem sudoCmds_getD (j : Nat) (h : j < 5) :
    sudoCmds.getD j [] = "sudo" :: package_managers.getD j [] := by
  interval_cases j <;> rfl

/-- When every candidate fails, the fallback loop attempts all of them in
order and returns false. -/
theorem tryManagers_all_fail (w : World) :
    ∀ (cmds : List (List String)) (s : St),
      (∀ j, j < cmds.length →
        isSuccess (w (s.n + j) ("sudo" :: cmds.getD j [])) = false) →
      tryManagers w cmds s =
        (false, ⟨s.n + cmds.length, s.tr ++ cmds.map (fun c => "sudo" :: c)⟩)
  | [], s, _ => by simp [tryManagers]
  | c :: rest, s, h => by
    have h0 := h 0 (by simp)
    rw [Nat.add_zero, show (c :: rest).getD 0 [] = c from rfl] at h0
    have ih := tryManagers_all_fail w rest ⟨s.n + 1, s.tr ++ [("sudo" :: c)]⟩
      (fun j hj => by
        have hs := h (j + 1) (by simpa using Nat.succ_lt_succ hj)
        have e : s.n + (j + 1) = s.n + 1 + j := by omega
        rw [e] at hs
        simpa using hs)
    unfold tryManagers runOne
    simp only [h0, Bool.false_eq_true, if_false]
    rw [ih]
    simp [St.mk.injEq, List.append_assoc]
    omega

/-- When the k-th candidate is the first to succeed, the fallback loop
attempts exactly the first k+1 candidates in order and returns true. -/
theorem tryManagers_first_success (w : World) :
    ∀ (cmds : List (List String)) (s : St) (k : Nat), k < cmds.length →
      (∀ j, j < k → isSuccess (w (s.n + j) ("sudo" :: cmds.getD j [])) = false) →
      isSuccess (w (s.n + k) ("sudo" :: cmds.getD k [])) = true →
      tryManagers w cmds s =
        (true, ⟨s.n + (k + 1),
          s.tr ++ (cmds.take (k + 1)).map (fun c => "sudo" :: c)⟩)
  | [], _, k, hk, _, _ => by simp at hk
  | c :: rest, s, 0, hk, hprev, hsucc => by
    rw [Nat.add_zero, show (c :: rest).getD 0 [] = c from rfl] at hsucc
    unfold tryManagers runOne
    simp [hsucc, St.mk.injEq]
  | c :: rest, s, k + 1, hk, hprev, hsucc => by
    have h0 := hprev 0 (by omega)
    rw [Nat.add_zero, show (c :: rest).getD 0 [] = c from rfl] at h0
    have ih := tryManagers_first_success w rest ⟨s.n + 1, s.tr ++ [("sudo" :: c)]⟩ k
      (by simpa using Nat.lt_of_succ_lt_succ hk)
      (fun j hj => by
        have hs := hprev (j + 1) (by omega)
        have e : s.n + (j + 1) = s.n + 1 + j := by omega
        rw [e] at hs
        simpa using hs)
      (by
        have e : s.n + (k + 1) = s.n + 1 + k := by omega
        rw [e] at hsucc
        simpa using hsucc)
    unfold tryManagers runOne
    simp only [h0, Bool.false_eq_true, if_false]
    rw [ih]
    simp [St.mk.injEq, List.append_assoc]
    omega

/-- C3.  The fallback strategy attempts the candidates in the fixed source
order apt, yum, dnf, zypper, pacman: if the k-th candidate is the first
whose install command exits 0, exactly the first k+1 sudo-prefixed
candidates are spawned and the strategy returns true; if all five fail
(non-zero exit or missing executable alike), all five are spawned and it
returns false; concretely, when only dnf succeeds, exactly apt, yum and dnf
are attempted and zypper and pacman never appear in the trace. -/
theorem fallback_fixed_order_first_success (w : World) (s : St) :
    (∀ k, k < 5 → (∀ j, j < k → attemptSucceeds w s.n j = false) →
      attemptSucceeds w s.n k = true →
      install_nodejs_fallback w s =
        (true, ⟨s.n + (k + 1), s.tr ++ sudoCmds.take (k + 1)⟩)) ∧
    ((∀ j, j < 5 → attemptSucceeds w s.n j = false) →
      install_nodejs_fallback w s = (false, ⟨s.n + 5, s.tr ++ sudoCmds⟩)) ∧
    install_nodejs_fallback wOnlyDnf ⟨0, []⟩ =
      (true, ⟨3, [["sudo", "apt", "install", "-y", "nodejs", "npm"],
                  ["sudo", "yum", "install", "-y", "nodejs", "npm"],
                  ["sudo", "dnf", "install", "-y", "nodejs", "npm"]]⟩) := by
  refine ⟨fun k hk hprev hsucc => ?_, fun hall => ?_, rfl⟩
  · have hres := tryManagers_first_success w package_managers s k hk
      (fun j hj => by
        have hs := hprev j hj
        rwa [attemptSucceeds, sudoCmds_getD j (by omega)] at hs)
      (by rwa [attemptSucceeds, sudoCmds_getD k hk] at hsucc)
    unfold install_nodejs_fallback
    rw [hres]
    simp [sudoCmds, List.map_take]
  · have hres := tryManagers_all_fail w package_managers s
      (fun j hj => by
        have hs := hall j hj
        rwa [attemptSucceeds, sudoCmds_getD j hj] at hs)
    unfold install_nodejs_fallback
    rw [hres]
    rfl

/-- C4.  When the first presence check succeeds, the run short-circuits: no
distro identification matters (the OS-release content is arbitrary and
absent from the conclusion), the only spawned command is the single
`node --version` probe, `setup` is invoked with "http" and the exit code is
0. -/
theorem installed_short_circuit (euid : Nat) (osRelease : Option String)
    (w : World) (h : isSuccess (w 0 ["node", "--version"]) = true) :
    mainRun "Linux" euid osRelease w =
      { exitCode := 0, setupCalls := ["http"], warned := euid != 0,
        tr := [["node", "--version"]] } := by
  rcases hw : w 0 ["node", "--version"] with _ | ⟨c, out⟩
  · rw [hw] at h
    exact absurd h (by simp [isSuccess])
  · cases c with
    | zero => simp [mainRun, check_node_installed, runOne, hw]
    | succ m =>
      rw [hw] at h
      exact absurd h (by simp [isSuccess])

/-- C4 witness: with every command answering exit 0, the run exits 0 after
the single probe and calls setup("http"). -/
theorem installed_short_circuit_witness :
    mainRun "Linux" 0 (some "ID=ubuntu") wNodePresent =
      { exitCode := 0, setupCalls := ["http"], warned := false,
        tr := [["node", "--version"]] } :=
  installed_short_circuit 0 (some "ID=ubuntu") wNodePresent rfl

/-- C5.  When the pre-check reports Node.js absent, the install strategy
reports success, and the post-install verification still reports it absent,
the run exits 1 and never invokes setup: the verification failure is fatal
and not retried. -/
theorem verify_failure_is_fatal (euid : Nat) (osRelease : Option String)
    (w : World)
    (h1 : (check_node_installed w ⟨0, []⟩).1.1 = false)
    (h2 : (install_nodejs osRelease w (check_node_installed w ⟨0, []⟩).2).1 = .ok true)
    (h3 : (check_node_installed w
            (install_nodejs osRelease w (check_node_installed w ⟨0, []⟩).2).2).1.1 = false) :
    (mainRun "Linux" euid osRelease w).exitCode = 1 ∧
    (mainRun "Linux" euid osRelease w).setupCalls = [] := by
  unfold mainRun
  simp [h1, h2, h3]

/-- C5 witness: the pre-check fails, the fallback's first candidate reports
success, the verification probe still fails; the run exits 1 without calling
setup. -/
theorem verify_failure_is_fatal_witness :
    (mainRun "Linux" 0 none wVerifyFail).exitCode = 1 ∧
    (mainRun "Linux" 0 none wVerifyFail).setupCalls = [] :=
  verify_failure_is_fatal 0 none wVerifyFail rfl rfl rfl

/-- On Linux the effective uid influences only the warning flag: every other
field of the outcome equals the outcome of the same run with uid 0. -/
theorem mainRun_fields_euid_free (euid : Nat) (osRelease : Option String)
    (w : World) :
    (mainRun "Linux" euid osRelease w).warned = (euid != 0) ∧
    (mainRun "Linux" euid osRelease w).exitCode =
      (mainRun "Linux" 0 osRelease w).exitCode ∧
    (mainRun "Linux" euid osRelease w).setupCalls =
      (mainRun "Linux" 0 osRelease w).setupCalls ∧
    (mainRun "Linux" euid osRelease w).tr = (mainRun "Linux" 0 osRelease w).tr := by
  have hL : ¬("Linux" ≠ "Linux") := by simp
  unfold mainRun
  rw [if_neg hL, if_neg hL]
  by_cases hc1 : (check_node_installed w ⟨0, []⟩).1.1 = true
  · simp [hc1]
  · rw [Bool.not_eq_true] at hc1
    simp only [hc1, Bool.false_eq_true, if_false]
    rcases hr : (install_nodejs osRelease w (check_node_installed w ⟨0, []⟩).2).1
      with e | b
    · simp [hr]
    · cases b
      · simp [hr]
      · simp only [hr]
        by_cases hc2 : (check_node_installed w
            (install_nodejs osRelease w (check_node_installed w ⟨0, []⟩).2).2).1.1 = true
        · simp [hc2]
        · rw [Bool.not_eq_true] at hc2
          simp [hc2]

/-- Every run ends with exit code 0 and setup called, or exit code 1 and
setup not called. -/
theorem mainRun_cases (p : String) (euid : Nat) (osRelease : Option String)
    (w : World) :
    ((mainRun p euid osRelease w).exitCode = 0 ∧
      (mainRun p euid osRelease w).setupCalls = ["http"]) ∨
    ((mainRun p euid osRelease w).exitCode = 1 ∧
      (mainRun p euid osRelease w).setupCalls = []) := by
  by_cases hp : p ≠ "Linux"
  · right
    simp [mainRun, hp]
  · unfold mainRun
    rw [if_neg hp]
    by_cases hc1 : (check_node_installed w ⟨0, []⟩).1.1 = true
    · left
      simp [hc1]
    · rw [Bool.not_eq_true] at hc1
      simp only [hc1, Bool.false_eq_true, if_false]
      rcases hr : (install_nodejs osRelease w (check_node_installed w ⟨0, []⟩).2).1
        with e | b
      · right
        simp [hr]
      · cases b
        · right
          simp [hr]
        · simp only [hr]
          by_cases hc2 : (check_node_installed w
              (install_nodejs osRelease w (check_node_installed w ⟨0, []⟩).2).2).1.1 = true
          · left
            simp [hc2]
          · rw [Bool.not_eq_true] at hc2
            right
            simp [hc2]

/-- C8.  A non-Linux platform is a hard stop: the run exits 1 with no
presence check, no install action and no setup call, before even the
privilege check (the warning flag stays false).  A non-zero effective uid,
by contrast, only turns on the warning: all other outcome fields equal the
uid-0 run's. -/
theorem platform_gate_and_privilege_warning (p : String) (euid : Nat)
    (osRelease : Option String) (w : World) :
    (p ≠ "Linux" → mainRun p euid osRelease w =
      { exitCode := 1, setupCalls := [], warned := false, tr := [] }) ∧
    ((mainRun "Linux" euid osRelease w).warned = (euid != 0) ∧
     (mainRun "Linux" euid osRelease w).exitCode =
       (mainRun "Linux" 0 osRelease w).exitCode ∧
     (mainRun "Linux" euid osRelease w).setupCalls =
       (mainRun "Linux" 0 osRelease w).setupCalls ∧
     (mainRun "Linux" euid osRelease w).tr = (mainRun "Linux" 0 osRelease w).tr) :=
  ⟨fun h => by simp [mainRun, h], mainRun_fields_euid_free euid osRelease w⟩

/-- C9.  The downstream setup collaborator is invoked exactly on the success
paths: exit code 0 happens iff setup was called, and then with exactly the
single fixed token "http"; every failure path exits 1 with no setup call;
no other exit code occurs. -/
theorem setup_exactly_on_success (p : String) (euid : Nat)
    (osRelease : Option String) (w : World) :
    ((mainRun p euid osRelease w).exitCode = 0 →
      (mainRun p euid osRelease w).setupCalls = ["http"]) ∧
    ((mainRun p euid osRelease w).exitCode ≠ 0 →
      (mainRun p euid osRelease w).setupCalls = []) ∧
    ((mainRun p euid osRelease w).exitCode = 0 ∨
      (mainRun p euid osRelease w).exitCode = 1) := by
  rcases mainRun_cases p euid osRelease w with ⟨h0, hs⟩ | ⟨h1, hs⟩
  · exact ⟨fun _ => hs, fun hne => absurd h0 hne, Or.inl h0⟩
  · refine ⟨fun h0 => ?_, fun _ => hs, Or.inr h1⟩
    rw [h1] at h0
    exact absurd h0 (by simp)

/-- C10.  In the Debian strategy the setup-script URL is fetched twice with
identical curl commands; the conclusion names only the second fetch's stdout
(the free first-fetch stdout o3 appears nowhere, so the first result is
discarded unused), and that stdout is what `sudo -E bash -c` executes,
strictly before any `apt install nodejs` step. -/
theorem debian_double_fetch (w : World) (s : St) (o1 o2 o3 o4 : String)
    (h1 : classify (w s.n ["sudo", "apt", "update"]) = .passed o1)
    (h2 : classify (w (s.n + 1) ["sudo", "apt", "install", "-y", "curl", "gnupg"]) =
      .passed o2)
    (h3 : classify (w (s.n + 1 + 1) ["curl", "-fsSL", debianScriptUrl]) = .passed o3)
    (h4 : classify (w (s.n + 1 + 1 + 1) ["curl", "-fsSL", debianScriptUrl]) =
      .passed o4) :
    ∃ t, (install_nodejs_debian_based w s).2.tr =
        s.tr ++ [["sudo", "apt", "update"],
                 ["sudo", "apt", "install", "-y", "curl", "gnupg"],
                 ["curl", "-fsSL", debianScriptUrl],
                 ["curl", "-fsSL", debianScriptUrl],
                 ["sudo", "-E", "bash", "-c", o4]] ++ t ∧
        (t = [] ∨ t = [["sudo", "apt", "install", "-y", "nodejs"]]) := by
  unfold install_nodejs_debian_based stepBind runOne
  simp only [h1, h2, h3, h4]
  rcases hc5 : classify (w (s.n + 1 + 1 + 1 + 1) ["sudo", "-E", "bash", "-c", o4])
    with _ | _ | o5
  · exact ⟨[], by simp [hc5, List.append_assoc], Or.inl rfl⟩
  · exact ⟨[], by simp [hc5, List.append_assoc], Or.inl rfl⟩
  · rcases hc6 : classify (w (s.n + 1 + 1 + 1 + 1 + 1)
        ["sudo", "apt", "install", "-y", "nodejs"]) with _ | _ | o6 <;>
      exact ⟨[["sudo", "apt", "install", "-y", "nodejs"]],
        by simp [hc5, hc6, List.append_assoc], Or.inr rfl⟩

/-- C10 witness: with every command exiting 0 and the two fetches returning
distinct stdouts, the bash step executes the second fetch's stdout. -/
theorem debian_double_fetch_witness :
    ∃ t, (install_nodejs_debian_based wDebianRun ⟨0, []⟩).2.tr =
        [] ++ [["sudo", "apt", "update"],
               ["sudo", "apt", "install", "-y", "curl", "gnupg"],
               ["curl", "-fsSL", debianScriptUrl],
               ["curl", "-fsSL", debianScriptUrl],
               ["sudo", "-E", "bash", "-c", "second-fetch"]] ++ t ∧
        (t = [] ∨ t = [["sudo", "apt", "install", "-y", "nodejs"]]) :=
  debian_double_fetch wDebianRun ⟨0, []⟩ "" "" "first-fetch" "second-fetch"
    rfl rfl rfl rfl
